import Mathlib

/-!
Verification of the authorization core of the warehouse-management-api
repository: a shallow embedding, in Lean 4, of the token service
(src/services/token.service.ts), the session lifecycle manager
(src/services/auth.service.ts), the permission engine
(src/services/permission.service.ts) and the crypto/OTP utilities
(src/utils/crypto.ts, src/utils/otp.ts), together with theorems settling
the specification claims about them.

Modelling conventions:
- MongoDB collections are lists of documents; insertOne appends,
  deleteMany filters, updateOne rewrites the first match, updateMany
  rewrites every match, and findOne with no sort returns the first match
  in collection order.
- Timestamps are natural numbers (epoch seconds for tokens; the same
  single clock is used for OTP Date comparisons).
- The jsonwebtoken library is modelled by its documented semantics: a
  signed token is the pair of its payload and the signing key; verify
  rejects a wrong key with an invalid-signature error before the expiry
  check, and reports expiry exactly when the clock is at or past exp
  (clockTimestamp greater than or equal to exp); decode returns the
  payload without any check.
- The one-way hash primitives (createHash / createHmac) are injected as
  function fields of the environment, since their internals are outside
  the repository.
- Random generation (new ObjectId, generateOTP) is modelled by passing
  the generated value as an explicit argument; freshness is a hypothesis
  where a theorem needs it.
- Fields never read by the modelled slice (for example password_change_at
  and the audit fields of Base.schema other than created_at / is_removed)
  are omitted from the document structures.
-/

namespace Wma

/-- TokenType from src/constants/enums.ts. -/
inductive TokenType
  | AccessToken
  | RefreshToken
  | ForgotPasswordToken
  | OTPVerify
deriving DecidableEq, Repr

/-- String value of each enum member, as in src/constants/enums.ts
(OTPVerify is the string OTPVerifyToken). -/
def TokenType.str : TokenType → String
  | .AccessToken => "AccessToken"
  | .RefreshToken => "RefreshToken"
  | .ForgotPasswordToken => "ForgotPasswordToken"
  | .OTPVerify => "OTPVerifyToken"

/-- OtpVerifyType from src/constants/enums.ts. -/
inductive OtpVerifyType
  | EmailVerification
  | PasswordReset
deriving DecidableEq, Repr

/-- UserVerifyStatus from src/constants/enums.ts. -/
inductive UserVerifyStatus
  | Unverified
  | Verified
  | Celerity
  | Banned
deriving DecidableEq, Repr

/-- Claims carried inside a signed token
(src/utils/interface/Jwt.interface.ts). AccessTokenPayload adds email
and roles; RefreshTokenPayload adds tokenId; the base payload carries
sub, type, iat, exp. A single structure holds the union, with the
kind-specific fields defaulted for the kinds that lack them. -/
structure JwtPayload where
  sub : String
  type : TokenType
  iat : Nat
  exp : Nat
  email : String := ""
  roles : List String := []
  tokenId : Option String := none
deriving DecidableEq, Repr

/-- A jwt.sign output, modelled as the signed payload paired with the
signing key. Two sign calls with equal payload and key yield equal
tokens, matching string equality of the serialized JWT. -/
structure SignedToken where
  payload : JwtPayload
  key : String
deriving DecidableEq, Repr

/-- Failure modes of jwt.verify that the modelled code distinguishes. -/
inductive JwtError
  | invalidSignature
  | expired
deriving DecidableEq, Repr

/-- Model of jwt.sign from the jsonwebtoken library. -/
def jwtSign (payload : JwtPayload) (key : String) : SignedToken :=
  ⟨payload, key⟩

/-- Model of jwt.verify from the jsonwebtoken library: the signature is
checked first (wrong key gives an invalid-signature JsonWebTokenError);
then expiry is reported when the clock is at or past exp. -/
def jwtVerify (t : SignedToken) (key : String) (now : Nat) :
    Except JwtError JwtPayload :=
  if t.key ≠ key then .error .invalidSignature
  else if t.payload.exp ≤ now then .error .expired
  else .ok t.payload

/-- Model of jwt.decode: returns the payload with no verification. -/
def jwtDecode (t : SignedToken) : JwtPayload := t.payload

/-- Persisted refresh-token document (src/models/Token.schema.ts). -/
structure TokenDoc where
  token_id : String
  user_id : String
  token : SignedToken
  type : TokenType
  expires_at : Nat
  is_removed : Bool
deriving DecidableEq, Repr

/-- Persisted OTP document (Otp schema): oid models the Mongo _id,
created_at comes from Base.schema. -/
structure OtpDoc where
  oid : Nat
  user_id : String
  code : String
  expired_at : Nat
  created_at : Nat
  type : OtpVerifyType
  is_used : Bool
deriving DecidableEq, Repr

/-- User document, restricted to the fields the modelled slice reads. -/
structure UserDoc where
  id : String
  email : String
  password : String
  roles : List String
  verify : UserVerifyStatus
  is_approved : Bool
  is_removed : Bool
deriving DecidableEq, Repr

/-- Permission document (read by the permission service). -/
structure PermissionDoc where
  id : String
  name : String
  action : String
  subject : String
  conditions : Option String
deriving DecidableEq, Repr

/-- Role document (read by the permission service). -/
structure RoleDoc where
  id : String
  name : String
  is_active : Bool
  permissions : List String
deriving DecidableEq, Repr

/-- The mutable state the modelled services touch: the in-memory token
blacklist of token.service.ts plus the database collections. -/
structure AppState where
  blacklist : List SignedToken
  tokens : List TokenDoc
  otps : List OtpDoc
  users : List UserDoc
  roles : List RoleDoc
  permissions : List PermissionDoc
deriving DecidableEq, Repr

/-- Environment: signing keys and TTLs from env config, plus the two
one-way hash primitives (createHash-based digest and createHmac) and
the email normalization primitive — the JavaScript
trim().toLowerCase() combination — injected as functions because their
internals (crypto, Unicode case mapping) are outside the repo. -/
structure Env where
  accessKey : String
  refreshKey : String
  forgotKey : String
  otpKey : String
  accessTtl : Nat
  refreshTtl : Nat
  passwordSecret : String
  digest : String → String
  hmac : String → String
  normalize : String → String

namespace Mongo

/-- Model of collection.updateOne: rewrite the first matching document. -/
def updateFirst {α : Type} (p : α → Bool) (f : α → α) : List α → List α
  | [] => []
  | x :: xs => if p x then f x :: xs else x :: updateFirst p f xs

/-- Model of collection.updateMany: rewrite every matching document. -/
def updateMany {α : Type} (p : α → Bool) (f : α → α) (l : List α) : List α :=
  l.map (fun x => if p x then f x else x)

/-- Model of collection.deleteMany: drop every matching document. -/
def deleteMany {α : Type} (p : α → Bool) (l : List α) : List α :=
  l.filter (fun x => !p x)

end Mongo

namespace Crypto

/-- hashPassword from src/utils/crypto.ts: digest of password plus the
password secret. -/
def hashPassword (env : Env) (password : String) : String :=
  env.digest (password ++ env.passwordSecret)

/-- comparePassword from src/utils/crypto.ts: rehash the plaintext and
compare digests. -/
def comparePassword (env : Env) (plainPassword hashedPassword : String) : Bool :=
  decide (hashPassword env plainPassword = hashedPassword)

end Crypto

namespace OtpUtil

/-- encryptOTP from src/utils/otp.ts: HMAC of the code. -/
def encryptOTP (env : Env) (otp : String) : String :=
  env.hmac otp

/-- verifyOTP from src/utils/otp.ts: re-encrypt the plaintext and
compare with the stored digest. -/
def verifyOTP (env : Env) (plainOtp encryptedOtp : String) : Bool :=
  decide (encryptOTP env plainOtp = encryptedOtp)

/-- createOTPExpiration from src/utils/otp.ts: fifteen minutes from
now. -/
def createOTPExpiration (now : Nat) : Nat :=
  now + 15 * 60

end OtpUtil

namespace TokenService

/-- TokenValidationResult from src/utils/interface/Jwt.interface.ts. -/
structure TokenValidationResult where
  valid : Bool
  expired : Bool
  payload : Option JwtPayload
  error : Option String
deriving DecidableEq, Repr

/-- Helper invalidToken from token.service.ts line 14: an invalid
result with the given error message (the expired flag stays false). -/
def invalidToken (error : String) : TokenValidationResult :=
  { valid := false, expired := false, payload := none, error := some error }

/-- TOKEN_SECRET_MAP from token.service.ts line 20. -/
def tokenSecretMap (env : Env) : TokenType → String
  | .AccessToken => env.accessKey
  | .RefreshToken => env.refreshKey
  | .ForgotPasswordToken => env.forgotKey
  | .OTPVerify => env.otpKey

/-- validateToken from token.service.ts lines 104 to 157: blacklist
check, secret lookup, jwt.verify, type check, and for refresh tokens the
database lookup filtering is_removed not equal true server-side. The
type-mismatch message is interpolated from both types as in the source
(quote characters omitted). -/
def validateToken (env : Env) (s : AppState) (now : Nat)
    (token : SignedToken) (expectedType : TokenType) : TokenValidationResult :=
  if token ∈ s.blacklist then invalidToken "Token has been invalidated"
  else
    if tokenSecretMap env expectedType = "" then invalidToken "Unsupported token type"
    else
      match jwtVerify token (tokenSecretMap env expectedType) now with
      | .error .expired => invalidToken "Token has expired"
      | .error .invalidSignature => invalidToken "invalid signature"
      | .ok payload =>
        if payload.type ≠ expectedType then
          invalidToken ("Invalid token type. Expected " ++ expectedType.str
            ++ ", got " ++ payload.type.str)
        else if expectedType = TokenType.RefreshToken then
          match payload.tokenId with
          | none => invalidToken "Malformed refresh token payload"
          | some tid =>
            if payload.sub = "" then invalidToken "Malformed refresh token payload"
            else if s.tokens.any (fun d => decide (d.token_id = tid ∧
                d.user_id = payload.sub ∧ d.type = TokenType.RefreshToken ∧
                d.is_removed = false)) then
              { valid := true, expired := false, payload := some payload, error := none }
            else invalidToken "Token has been revoked or does not exist"
        else
          { valid := true, expired := false, payload := some payload, error := none }

/-- invalidateToken from token.service.ts lines 163 to 188: add the
token to the in-memory blacklist, then decode it and, when the decoded
payload has a tokenId, a sub and refresh type, mark the matching
database row is_removed via updateOne. -/
def invalidateToken (s : AppState) (token : SignedToken) : AppState :=
  let s1 : AppState := { s with blacklist := token :: s.blacklist }
  let payload := jwtDecode token
  match payload.tokenId with
  | none => s1
  | some tid =>
    if payload.sub ≠ "" ∧ payload.type = TokenType.RefreshToken then
      let tokens := Mongo.updateFirst
        (fun d => decide (d.token_id = tid ∧ d.user_id = payload.sub ∧
          d.type = TokenType.RefreshToken))
        (fun d => { d with is_removed := true }) s1.tokens
      { s1 with tokens := tokens }
    else s1

/-- invalidateAllUserRefreshTokens from token.service.ts lines 194 to
204: updateMany setting is_removed on every refresh row of the user. -/
def invalidateAllUserRefreshTokens (s : AppState) (userId : String) : AppState :=
  let tokens := Mongo.updateMany
    (fun d => decide (d.user_id = userId ∧ d.type = TokenType.RefreshToken))
    (fun d => { d with is_removed := true }) s.tokens
  { s with tokens := tokens }

/-- generateAccessToken from token.service.ts lines 35 to 48: sign the
access payload with the access key; nothing is persisted. -/
def generateAccessToken (env : Env) (now : Nat) (userId email : String)
    (roles : List String) : SignedToken :=
  jwtSign { sub := userId, type := TokenType.AccessToken, email := email,
            roles := roles, iat := now, exp := now + env.accessTtl }
    env.accessKey

/-- generateRefreshToken from token.service.ts lines 55 to 80: sign the
refresh payload carrying a freshly generated tokenId and persist a row
for it. The fresh ObjectId string is passed as the tokenId argument. -/
def generateRefreshToken (env : Env) (s : AppState) (now : Nat)
    (userId tokenId : String) : SignedToken × String × AppState :=
  let payload : JwtPayload :=
    { sub := userId, type := TokenType.RefreshToken, tokenId := some tokenId,
      iat := now, exp := now + env.refreshTtl }
  let token := jwtSign payload env.refreshKey
  let newToken : TokenDoc :=
    { token_id := tokenId, user_id := userId, token := token,
      type := TokenType.RefreshToken, expires_at := now + env.refreshTtl,
      is_removed := false }
  (token, tokenId, { s with tokens := s.tokens ++ [newToken] })

end TokenService

/-- ErrorWithStatus from src/errors (part of the error middleware): the
message and HTTP status carried by a thrown service error. -/
structure ErrorWithStatus where
  message : String
  status : Nat
deriving DecidableEq, Repr

/-- HTTP status constants used by the modelled flows. -/
def HTTP_BAD_REQUEST : Nat := 400

def HTTP_UN_AUTHORIZED : Nat := 401

def HTTP_NOT_FOUND : Nat := 404

/-- Message constants from src/constants/message.ts used by the
modelled flows. -/
def MSG_TOKEN_MISSING : String := "Token is missing"

def MSG_TOKEN_INVALID : String := "Invalid token"

def MSG_USER_ID_MISSING : String := "User ID is missing"

def MSG_USER_NOT_FOUND : String := "User not found"

def MSG_INVALID_OTP : String := "Invalid or expired OTP code"

def MSG_NEW_PASSWORD_SAME : String :=
  "New password must be different from current password"

namespace AuthService

/-- Model of findOne with sort created_at descending on the otps
collection: among the matching documents, the one with the greatest
created_at (the earliest such document on ties). -/
def findMostRecentOtp (p : OtpDoc → Bool) (otps : List OtpDoc) : Option OtpDoc :=
  (otps.filter p).foldl
    (fun acc d =>
      match acc with
      | none => some d
      | some b => if d.created_at > b.created_at then some d else some b)
    none

/-- reissueToken from auth.service.ts lines 697 to 762: reject a missing
token with 400; validate the presented refresh token, propagating the
validation error message with status 401 on failure; reject a missing
sub with 401 and a missing or removed user row with 404; then
invalidate the old token, generate a new access token and a new
persisted refresh token, and return both. The fresh ObjectId for the
new refresh row is the freshTokenId argument. -/
def reissueToken (env : Env) (s : AppState) (now : Nat) (freshTokenId : String)
    (refreshToken : Option SignedToken) :
    Except ErrorWithStatus ((SignedToken × SignedToken) × AppState) :=
  match refreshToken with
  | none => .error ⟨MSG_TOKEN_MISSING, HTTP_BAD_REQUEST⟩
  | some rt =>
    let validationResult := TokenService.validateToken env s now rt TokenType.RefreshToken
    if validationResult.valid = false then
      .error ⟨validationResult.error.getD MSG_TOKEN_INVALID, HTTP_UN_AUTHORIZED⟩
    else
      match validationResult.payload with
      | none => .error ⟨MSG_USER_ID_MISSING, HTTP_UN_AUTHORIZED⟩
      | some payload =>
        if payload.sub = "" then
          .error ⟨MSG_USER_ID_MISSING, HTTP_UN_AUTHORIZED⟩
        else
          match s.users.find? (fun u => decide (u.id = payload.sub ∧ u.is_removed = false)) with
          | none => .error ⟨MSG_USER_NOT_FOUND, HTTP_NOT_FOUND⟩
          | some user =>
            let s1 := TokenService.invalidateToken s rt
            let accessToken :=
              TokenService.generateAccessToken env now payload.sub user.email user.roles
            let r := TokenService.generateRefreshToken env s1 now payload.sub freshTokenId
            .ok ((accessToken, r.1), r.2.2)

/-- generateAndSendOTP from auth.service.ts lines 308 to 349: delete
every OTP row of the user (the deleteMany filter is user_id only),
then insert the new code with a fifteen-minute expiry; the type
defaults to EmailVerification when absent. The random six-digit code
and the fresh document id are passed as arguments; sending the email is
an external effect with no state change. -/
def generateAndSendOTP (env : Env) (s : AppState) (now : Nat)
    (userId plainOtp : String) (freshOid : Nat)
    (otpType : Option OtpVerifyType) : AppState :=
  let encryptedOtp := OtpUtil.encryptOTP env plainOtp
  let otpExpiration := OtpUtil.createOTPExpiration now
  let s1 : AppState :=
    { s with otps := Mongo.deleteMany (fun o => decide (o.user_id = userId)) s.otps }
  let otpDoc : OtpDoc :=
    { oid := freshOid, user_id := userId, code := encryptedOtp,
      expired_at := otpExpiration, created_at := now,
      type := otpType.getD OtpVerifyType.EmailVerification, is_used := false }
  { s1 with otps := s1.otps ++ [otpDoc] }

/-- forgotPassword from auth.service.ts lines 357 to 401: look up the
user by normalized email (404 when absent), delete the existing
password-reset OTP rows of the user, and insert the new password-reset
code. -/
def forgotPassword (env : Env) (s : AppState) (now : Nat)
    (email plainOtp : String) (freshOid : Nat) :
    Except ErrorWithStatus AppState :=
  let normalizedEmail := env.normalize email
  match s.users.find? (fun u => decide (u.email = normalizedEmail)) with
  | none => .error ⟨MSG_USER_NOT_FOUND, HTTP_NOT_FOUND⟩
  | some user =>
    let remaining := Mongo.deleteMany
      (fun o => decide (o.user_id = user.id ∧ o.type = OtpVerifyType.PasswordReset))
      s.otps
    let s1 : AppState := { s with otps := remaining }
    let otpDoc : OtpDoc :=
      { oid := freshOid, user_id := user.id, code := OtpUtil.encryptOTP env plainOtp,
        expired_at := OtpUtil.createOTPExpiration now, created_at := now,
        type := OtpVerifyType.PasswordReset, is_used := false }
    .ok { s1 with otps := s1.otps ++ [otpDoc] }

/-- resendOTP from auth.service.ts lines 581 to 631: look up the user
by normalized email (404 when absent) and insert a fresh code of the
requested type. Unlike generateAndSendOTP and forgotPassword, no prior
code is deleted or invalidated. -/
def resendOTP (env : Env) (s : AppState) (now : Nat)
    (email plainOtp : String) (freshOid : Nat) (otpType : OtpVerifyType) :
    Except ErrorWithStatus AppState :=
  let normalizedEmail := env.normalize email
  match s.users.find? (fun u => decide (u.email = normalizedEmail)) with
  | none => .error ⟨MSG_USER_NOT_FOUND, HTTP_NOT_FOUND⟩
  | some user =>
    let otpDoc : OtpDoc :=
      { oid := freshOid, user_id := user.id, code := OtpUtil.encryptOTP env plainOtp,
        expired_at := OtpUtil.createOTPExpiration now, created_at := now,
        type := otpType, is_used := false }
    .ok { s with otps := s.otps ++ [otpDoc] }

/-- verifyPasswordResetOTP from auth.service.ts lines 410 to 454: look
up the user by normalized email, find the most recent unexpired
password-reset OTP row (note: the source filter does not exclude rows
with is_used true), compare digests, and on success set is_used on that
row and return the user id and email. -/
def verifyPasswordResetOTP (env : Env) (s : AppState) (now : Nat)
    (otp email : String) :
    Except ErrorWithStatus (String × String) × AppState :=
  let normalizedEmail := env.normalize email
  match s.users.find? (fun u => decide (u.email = normalizedEmail)) with
  | none => (.error ⟨MSG_USER_NOT_FOUND, HTTP_NOT_FOUND⟩, s)
  | some user =>
    match findMostRecentOtp
        (fun o => decide (o.user_id = user.id ∧
          o.type = OtpVerifyType.PasswordReset ∧ now < o.expired_at))
        s.otps with
    | none => (.error ⟨MSG_INVALID_OTP, HTTP_BAD_REQUEST⟩, s)
    | some otpRecord =>
      if OtpUtil.verifyOTP env otp otpRecord.code = false then
        (.error ⟨MSG_INVALID_OTP, HTTP_BAD_REQUEST⟩, s)
      else
        let otps := Mongo.updateFirst (fun o => decide (o.oid = otpRecord.oid))
          (fun o => { o with is_used := true }) s.otps
        (.ok (user.id, user.email), { s with otps := otps })

/-- verifyOTP from auth.service.ts lines 518 to 573 (email
verification): look up the user by normalized email, reject when
already verified, find the most recent unexpired unused
email-verification OTP row (this filter does exclude is_used rows),
compare digests, and on success set is_used on the row and mark the
user verified. -/
def verifyOTP (env : Env) (s : AppState) (now : Nat) (otp email : String) :
    Except ErrorWithStatus Bool × AppState :=
  let normalizedEmail := env.normalize email
  match s.users.find? (fun u => decide (u.email = normalizedEmail)) with
  | none => (.error ⟨MSG_USER_NOT_FOUND, HTTP_NOT_FOUND⟩, s)
  | some user =>
    if user.verify = UserVerifyStatus.Verified then
      (.error ⟨MSG_INVALID_OTP, HTTP_BAD_REQUEST⟩, s)
    else
      match findMostRecentOtp
          (fun o => decide (o.user_id = user.id ∧
            o.type = OtpVerifyType.EmailVerification ∧ now < o.expired_at ∧
            o.is_used = false))
          s.otps with
      | none => (.error ⟨MSG_INVALID_OTP, HTTP_BAD_REQUEST⟩, s)
      | some otpRecord =>
        if OtpUtil.verifyOTP env otp otpRecord.code = false then
          (.error ⟨MSG_INVALID_OTP, HTTP_BAD_REQUEST⟩, s)
        else
          let otps := Mongo.updateFirst (fun o => decide (o.oid = otpRecord.oid))
            (fun o => { o with is_used := true }) s.otps
          let users := Mongo.updateFirst (fun u => decide (u.id = user.id))
            (fun u => { u with verify := UserVerifyStatus.Verified }) s.users
          (.ok true, { s with otps := otps, users := users })

/-- resetPassword from auth.service.ts lines 462 to 509: look up the
user by email (no normalization in the source here), reject with 400
when the new password compares equal to the stored digest, otherwise
store the new digest, mark every refresh row of the user removed, and
delete the password-reset OTP rows of the user whose is_used flag is
true (the deleteMany filter includes is_used true). -/
def resetPassword (env : Env) (s : AppState) (email password : String) :
    Except ErrorWithStatus Bool × AppState :=
  match s.users.find? (fun u => decide (u.email = email)) with
  | none => (.error ⟨MSG_USER_NOT_FOUND, HTTP_NOT_FOUND⟩, s)
  | some user =>
    if Crypto.comparePassword env password user.password then
      (.error ⟨MSG_NEW_PASSWORD_SAME, HTTP_BAD_REQUEST⟩, s)
    else
      let hashedPassword := Crypto.hashPassword env password
      let users := Mongo.updateFirst (fun u => decide (u.email = email))
        (fun u => { u with password := hashedPassword }) s.users
      let s1 : AppState := { s with users := users }
      let s2 := TokenService.invalidateAllUserRefreshTokens s1 user.id
      let otps := Mongo.deleteMany
        (fun o => decide (o.user_id = user.id ∧
          o.type = OtpVerifyType.PasswordReset ∧ o.is_used = true))
        s2.otps
      (.ok true, { s2 with otps := otps })

end AuthService

namespace PermissionService

/-- CachedPermission from the permission interfaces: the projected
shape the permission service returns. -/
structure CachedPermission where
  id : String
  name : String
  action : String
  subject : String
  conditions : Option String
deriving DecidableEq, Repr

/-- Projection of a permission row to the cached shape, as in the map
calls of getUserPermissionsFromDB. -/
def toCached (p : PermissionDoc) : CachedPermission :=
  { id := p.id, name := p.name, action := p.action, subject := p.subject,
    conditions := p.conditions }

/-- getUserPermissionsFromDB from permission.service.ts lines 54 to
118: load the user, return empty when absent or roleless; load the
active roles among the user role ids; return empty when none; if any
active role is named Admin return the whole permission catalog;
otherwise union the permission ids of the active roles and resolve
them. -/
def getUserPermissionsFromDB (s : AppState) (userId : String) :
    List CachedPermission :=
  match s.users.find? (fun u => decide (u.id = userId)) with
  | none => []
  | some user =>
    if user.roles.isEmpty then []
    else
      let userRoles := s.roles.filter
        (fun r => decide (r.id ∈ user.roles ∧ r.is_active = true))
      if userRoles.isEmpty then []
      else
        let isAdmin := userRoles.any (fun r => decide (r.name = "Admin"))
        if isAdmin then s.permissions.map toCached
        else
          let permissionIds :=
            userRoles.foldl (fun ids r => ids ++ r.permissions) ([] : List String)
          if permissionIds.isEmpty then []
          else
            (s.permissions.filter (fun p => decide (p.id ∈ permissionIds))).map toCached

/-- UserPermissionCache entry: permissions plus the caching instant. -/
structure UserPermissionCache where
  permissions : List CachedPermission
  timestamp : Nat
deriving DecidableEq, Repr

/-- CACHE_TTL from permission.service.ts: five minutes in
milliseconds. -/
def CACHE_TTL : Nat := 5 * 60 * 1000

/-- getUserPermissions from permission.service.ts lines 124 to 144:
serve from the per-user cache entry when younger than the TTL,
otherwise fetch from the database and overwrite the entry. The cache
map is passed and returned explicitly. -/
def getUserPermissions (s : AppState)
    (cache : List (String × UserPermissionCache)) (nowMs : Nat)
    (userId : String) :
    List CachedPermission × List (String × UserPermissionCache) :=
  match cache.find? (fun e => decide (e.fst = userId)) with
  | some entry =>
    if nowMs - entry.snd.timestamp < CACHE_TTL then (entry.snd.permissions, cache)
    else
      let permissions := getUserPermissionsFromDB s userId
      (permissions,
        cache.filter (fun e => !decide (e.fst = userId)) ++ [(userId, ⟨permissions, nowMs⟩)])
  | none =>
    let permissions := getUserPermissionsFromDB s userId
    (permissions,
      cache.filter (fun e => !decide (e.fst = userId)) ++ [(userId, ⟨permissions, nowMs⟩)])

end PermissionService

/-! Concrete environment and states used by witnesses and
counterexamples. The hash primitives are instantiated with an injective
string tagging function, standing in for the collision-free digests. -/

/-- Concrete environment for witnesses. -/
def wEnv : Env :=
  { accessKey := "akey", refreshKey := "rkey", forgotKey := "fkey",
    otpKey := "okey", accessTtl := 900, refreshTtl := 604800,
    passwordSecret := "sec",
    digest := fun x => String.append "D:" x,
    hmac := fun x => String.append "H:" x,
    normalize := fun x => x }

/-- Empty state. -/
def emptyState : AppState :=
  { blacklist := [], tokens := [], otps := [], users := [], roles := [],
    permissions := [] }

/-! Inversion lemmas about the token codec and validateToken. -/

/-- Inversion of a successful jwt.verify: the returned payload is the
signed payload, the key matches, and the token is unexpired. -/
theorem jwtVerify_ok_inv {t : SignedToken} {key : String} {now : Nat}
    {p : JwtPayload} (h : jwtVerify t key now = Except.ok p) :
    p = t.payload ∧ t.key = key ∧ now < t.payload.exp := by
  unfold jwtVerify at h
  by_cases h1 : t.key ≠ key
  · simp [h1] at h
  · by_cases h2 : t.payload.exp ≤ now
    · simp [h1, h2] at h
    · simp [h1, h2] at h
      exact ⟨h.symm, not_not.mp h1, Nat.lt_of_not_le h2⟩

/-- Inversion of a successful refresh-token validation: the payload
carries a tokenId and a nonempty sub, and a matching non-removed
refresh row is present in the store. -/
theorem validateToken_refresh_valid_inv (env : Env) (s : AppState) (now : Nat)
    (t : SignedToken)
    (h : (TokenService.validateToken env s now t TokenType.RefreshToken).valid = true) :
    ∃ tid, t.payload.tokenId = some tid ∧ t.payload.sub ≠ "" ∧
      t.payload.type = TokenType.RefreshToken ∧
      ∃ d ∈ s.tokens, d.token_id = tid ∧ d.user_id = t.payload.sub ∧
        d.type = TokenType.RefreshToken ∧ d.is_removed = false := by
  unfold TokenService.validateToken at h
  split at h
  · simp [TokenService.invalidToken] at h
  · split at h
    · simp [TokenService.invalidToken] at h
    · split at h
      · simp [TokenService.invalidToken] at h
      · simp [TokenService.invalidToken] at h
      · rename_i payload heq
        obtain ⟨hp, -, -⟩ := jwtVerify_ok_inv heq
        subst hp
        split at h
        · simp [TokenService.invalidToken] at h
        · rename_i hty
          have htype : t.payload.type = TokenType.RefreshToken := not_not.mp hty
          rw [if_pos rfl] at h
          rcases htid : t.payload.tokenId with - | tid
          · simp only [htid] at h; simp [TokenService.invalidToken] at h
          · simp only [htid] at h
            by_cases hsub : t.payload.sub = ""
            · rw [if_pos hsub] at h; simp [TokenService.invalidToken] at h
            · rw [if_neg hsub] at h
              split at h
              · rename_i hany
                rw [List.any_eq_true] at hany
                obtain ⟨d, hd, hdp⟩ := hany
                rw [decide_eq_true_eq] at hdp
                exact ⟨tid, htid ▸ rfl, hsub, htype, d, hd, hdp⟩
              · simp [TokenService.invalidToken] at h

/-- Characterization of validateToken: every run is either invalid or
returns the full valid result carrying the signed payload. -/
theorem validateToken_result_characterization (env : Env) (s : AppState)
    (now : Nat) (t : SignedToken) (ty : TokenType) :
    (TokenService.validateToken env s now t ty).valid = false ∨
    TokenService.validateToken env s now t ty =
      { valid := true, expired := false, payload := some t.payload, error := none } := by
  unfold TokenService.validateToken
  split
  · left; rfl
  · split
    · left; rfl
    · split
      · left; rfl
      · left; rfl
      · rename_i payload heq
        obtain ⟨hp, -, -⟩ := jwtVerify_ok_inv heq
        subst hp
        split
        · left; rfl
        · split
          · split
            · left; rfl
            · split
              · left; rfl
              · split
                · right; rfl
                · left; rfl
          · right; rfl

/-- After invalidateAllUserRefreshTokens, every refresh row of the user
is marked removed. -/
theorem invalidateAll_marks (s : AppState) (uid : String) :
    ∀ d ∈ (TokenService.invalidateAllUserRefreshTokens s uid).tokens,
      d.user_id = uid → d.type = TokenType.RefreshToken → d.is_removed = true := by
  intro d hd h1 h2
  unfold TokenService.invalidateAllUserRefreshTokens Mongo.updateMany at hd
  simp only [List.mem_map] at hd
  obtain ⟨a, ha, hEq⟩ := hd
  by_cases hp : (a.user_id = uid ∧ a.type = TokenType.RefreshToken)
  · rw [if_pos (by simpa using hp)] at hEq
    rw [← hEq]
  · rw [if_neg (by simpa using hp)] at hEq
    subst hEq
    exact absurd ⟨h1, h2⟩ hp

/-- After the updateOne of invalidateToken, every row matching the
decoded triple is marked removed, provided token ids are pairwise
distinct in the store (so at most one row matches). -/
theorem updateFirst_marks_of_unique (l : List TokenDoc) (tid sub : String)
    (huniq : l.Pairwise (fun a b => a.token_id ≠ b.token_id)) :
    ∀ d ∈ Mongo.updateFirst
      (fun d => decide (d.token_id = tid ∧ d.user_id = sub ∧
        d.type = TokenType.RefreshToken))
      (fun d => { d with is_removed := true }) l,
      d.token_id = tid → d.user_id = sub → d.type = TokenType.RefreshToken →
        d.is_removed = true := by
  induction l with
  | nil => intro d hd; simp [Mongo.updateFirst] at hd
  | cons x xs ih =>
    rw [List.pairwise_cons] at huniq
    intro d hd h1 h2 h3
    unfold Mongo.updateFirst at hd
    by_cases hx : (x.token_id = tid ∧ x.user_id = sub ∧ x.type = TokenType.RefreshToken)
    · rw [if_pos (by simpa using hx)] at hd
      rcases List.mem_cons.mp hd with hda | hdxs
      · rw [hda]
      · exact absurd (h1.trans hx.1.symm).symm (huniq.1 d hdxs)
    · rw [if_neg (by simpa using hx)] at hd
      rcases List.mem_cons.mp hd with hda | hdxs
      · subst hda; exact absurd ⟨h1, h2, h3⟩ hx
      · exact ih huniq.2 d hdxs h1 h2 h3

/-- C1: once a refresh credential row has been marked removed — by
invalidateAllUserRefreshTokens for the user, or by invalidateToken on
the presented token (with store token ids pairwise distinct, as fresh
ObjectIds guarantee) — validateToken with expected type RefreshToken
returns an invalid result even when the in-memory blacklist is empty,
because the store lookup filters is_removed server-side. -/
theorem revoked_refresh_never_validates :
    (∀ (env : Env) (s : AppState) (now : Nat) (t : SignedToken) (uid : String),
      t.payload.sub = uid →
      (TokenService.validateToken env
        { TokenService.invalidateAllUserRefreshTokens s uid with blacklist := [] }
        now t TokenType.RefreshToken).valid = false)
    ∧
    (∀ (env : Env) (s : AppState) (now : Nat) (t : SignedToken),
      s.tokens.Pairwise (fun a b => a.token_id ≠ b.token_id) →
      t.payload.type = TokenType.RefreshToken →
      (TokenService.validateToken env
        { TokenService.invalidateToken s t with blacklist := [] }
        now t TokenType.RefreshToken).valid = false) := by
  constructor
  · intro env s now t uid hsub
    by_contra hne
    rw [Bool.not_eq_false] at hne
    obtain ⟨tid, -, -, -, d, hd, -, hduid, hdty, hdrem⟩ :=
      validateToken_refresh_valid_inv _ _ _ _ hne
    have : d.is_removed = true :=
      invalidateAll_marks s uid d hd (hsub ▸ hduid) hdty
    rw [this] at hdrem
    exact Bool.true_eq_false.mp hdrem
  · intro env s now t huniq hty
    by_contra hne
    rw [Bool.not_eq_false] at hne
    obtain ⟨tid, htid, hsub, -, d, hd, hdtid, hduid, hdty, hdrem⟩ :=
      validateToken_refresh_valid_inv _ _ _ _ hne
    have hd' : d ∈ Mongo.updateFirst
        (fun d => decide (d.token_id = tid ∧ d.user_id = t.payload.sub ∧
          d.type = TokenType.RefreshToken))
        (fun d => { d with is_removed := true }) s.tokens := by
      simpa [TokenService.invalidateToken, jwtDecode, htid, hsub, hty] using hd
    have : d.is_removed = true :=
      updateFirst_marks_of_unique s.tokens tid t.payload.sub huniq d hd' hdtid hduid hdty
    rw [this] at hdrem
    exact Bool.true_eq_false.mp hdrem

/-- Concrete refresh token used by the C1 witness. -/
def w1Token : SignedToken :=
  jwtSign { sub := "u1", type := TokenType.RefreshToken, iat := 0, exp := 100,
            tokenId := some "t1" } "rkey"

/-- Concrete state with one active refresh row used by the C1 witness. -/
def w1State : AppState :=
  { emptyState with tokens :=
      [{ token_id := "t1", user_id := "u1", token := w1Token,
         type := TokenType.RefreshToken, expires_at := 100, is_removed := false }] }

/-- An active refresh credential in a state: a stored row with the
given token id and user, of refresh type, not removed and not yet
expired at the given instant. -/
def activeRefresh (s : AppState) (now : Nat) (tid uid : String) : Prop :=
  ∃ d ∈ s.tokens, d.token_id = tid ∧ d.user_id = uid ∧
    d.type = TokenType.RefreshToken ∧ d.is_removed = false ∧ now < d.expires_at

/-- Marking rows removed introduces no new token id: every member of
the updated list shares its token id with a member of the source. -/
theorem updateFirst_tokenIds (p : TokenDoc → Bool) (l : List TokenDoc) :
    ∀ d ∈ Mongo.updateFirst p (fun d => { d with is_removed := true }) l,
      ∃ a ∈ l, d.token_id = a.token_id := by
  induction l with
  | nil => intro d hd; simp [Mongo.updateFirst] at hd
  | cons x xs ih =>
    intro d hd
    unfold Mongo.updateFirst at hd
    split at hd
    · rcases List.mem_cons.mp hd with hda | hdxs
      · exact ⟨x, List.mem_cons_self x xs, by rw [hda]⟩
      · exact ⟨d, List.mem_cons_of_mem x hdxs, rfl⟩
    · rcases List.mem_cons.mp hd with hda | hdxs
      · exact ⟨x, List.mem_cons_self x xs, by rw [hda]⟩
      · obtain ⟨a, ha, haeq⟩ := ih d hdxs
        exact ⟨a, List.mem_cons_of_mem x ha, haeq⟩

/-- The payload generateRefreshToken signs. -/
def newRefreshPayload (env : Env) (now : Nat) (userId tokenId : String) : JwtPayload :=
  { sub := userId, type := TokenType.RefreshToken, tokenId := some tokenId,
    iat := now, exp := now + env.refreshTtl }

/-- The row that generateRefreshToken persists for a given user, fresh
id and instant. -/
def newRefreshDoc (env : Env) (now : Nat) (userId tokenId : String) : TokenDoc :=
  { token_id := tokenId, user_id := userId,
    token := jwtSign (newRefreshPayload env now userId tokenId) env.refreshKey,
    type := TokenType.RefreshToken, expires_at := now + env.refreshTtl,
    is_removed := false }

/-- generateRefreshToken appends exactly the new row to the store. -/
theorem generateRefreshToken_tokens (env : Env) (s : AppState) (now : Nat)
    (uid tid : String) :
    (TokenService.generateRefreshToken env s now uid tid).2.2.tokens =
      s.tokens ++ [newRefreshDoc env now uid tid] := rfl

/-- invalidateToken introduces no new token id into the store. -/
theorem invalidateToken_tokenIds (s : AppState) (t : SignedToken) :
    ∀ d ∈ (TokenService.invalidateToken s t).tokens,
      ∃ a ∈ s.tokens, d.token_id = a.token_id := by
  intro d hd
  simp only [TokenService.invalidateToken, jwtDecode] at hd
  split at hd
  · exact ⟨d, hd, rfl⟩
  · split at hd
    · exact updateFirst_tokenIds _ _ d hd
    · exact ⟨d, hd, rfl⟩

/-- C2: when reissueToken succeeds, the rotation is atomic: in the
final state every row of the presented credential is revoked and the
new refresh credential is persisted and active; and no state of the
rotation step — the pre-state, the state after invalidateToken, or the
final state — carries both the old and the new credential active at
once. Freshness of the generated id and pairwise-distinct stored ids
reflect ObjectId uniqueness. -/
theorem reissue_rotation_atomic (env : Env) (s : AppState) (now : Nat)
    (fid : String) (rt : SignedToken) (tid : String)
    (pair : SignedToken × SignedToken) (s2 : AppState)
    (hok : AuthService.reissueToken env s now fid (some rt) = .ok (pair, s2))
    (htid : rt.payload.tokenId = some tid)
    (hfresh : ∀ d ∈ s.tokens, d.token_id ≠ fid)
    (huniq : s.tokens.Pairwise (fun a b => a.token_id ≠ b.token_id))
    (httl : 0 < env.refreshTtl) :
    (∀ d ∈ s2.tokens, d.token_id = tid → d.user_id = rt.payload.sub →
      d.type = TokenType.RefreshToken → d.is_removed = true)
    ∧ activeRefresh s2 now fid rt.payload.sub
    ∧ ¬ (activeRefresh s now tid rt.payload.sub ∧
          activeRefresh s now fid rt.payload.sub)
    ∧ ¬ (activeRefresh (TokenService.invalidateToken s rt) now tid rt.payload.sub ∧
          activeRefresh (TokenService.invalidateToken s rt) now fid rt.payload.sub)
    ∧ ¬ (activeRefresh s2 now tid rt.payload.sub ∧
          activeRefresh s2 now fid rt.payload.sub) := by
  simp only [AuthService.reissueToken] at hok
  split at hok
  · simp at hok
  · rename_i hv
    rw [Bool.not_eq_false] at hv
    obtain ⟨tid0, htid0, hsub, htype, a, ha, hatid, hauid, haty, harem⟩ :=
      validateToken_refresh_valid_inv _ _ _ _ hv
    have htideq : tid = tid0 := Option.some_inj.mp (htid.symm.trans htid0)
    subst htideq
    rcases validateToken_result_characterization env s now rt TokenType.RefreshToken with
      hbad | hgood
    · rw [hv] at hbad; exact absurd hbad (by simp)
    · rw [hgood] at hok
      simp only [if_neg hsub] at hok
      split at hok
      · simp at hok
      · rename_i user huser
        rw [Except.ok.injEq, Prod.mk.injEq] at hok
        obtain ⟨-, hs2⟩ := hok
        have hneq : tid ≠ fid := by rw [← hatid]; exact hfresh a ha
        have hs1 : (TokenService.invalidateToken s rt).tokens =
            Mongo.updateFirst
              (fun d => decide (d.token_id = tid ∧ d.user_id = rt.payload.sub ∧
                d.type = TokenType.RefreshToken))
              (fun d => { d with is_removed := true }) s.tokens := by
          simp [TokenService.invalidateToken, jwtDecode, htid0, hsub, htype]
        have htoks : s2.tokens =
            (TokenService.invalidateToken s rt).tokens ++
              [newRefreshDoc env now rt.payload.sub fid] := by
          rw [← hs2]; exact generateRefreshToken_tokens env _ now rt.payload.sub fid
        have holdRevoked : ∀ d ∈ s2.tokens, d.token_id = tid →
            d.user_id = rt.payload.sub → d.type = TokenType.RefreshToken →
            d.is_removed = true := by
          intro d hd h1 h2 h3
          rw [htoks] at hd
          rcases List.mem_append.mp hd with hdl | hdr
          · rw [hs1] at hdl
            exact updateFirst_marks_of_unique s.tokens tid rt.payload.sub huniq d hdl h1 h2 h3
          · rw [List.mem_singleton] at hdr
            rw [hdr] at h1
            simp only [newRefreshDoc] at h1
            exact absurd h1.symm hneq
        refine ⟨holdRevoked, ?_, ?_, ?_, ?_⟩
        · refine ⟨newRefreshDoc env now rt.payload.sub fid, ?_, rfl, rfl, rfl, rfl, ?_⟩
          · rw [htoks]; exact List.mem_append_right _ (List.mem_singleton.mpr rfl)
          · simp only [newRefreshDoc]; omega
        · rintro ⟨-, d, hd, hdtid, -⟩
          exact hfresh d hd hdtid
        · rintro ⟨-, d, hd, hdtid, -⟩
          obtain ⟨a2, ha2, ha2eq⟩ := invalidateToken_tokenIds s rt d hd
          exact hfresh a2 ha2 (ha2eq ▸ hdtid)
        · rintro ⟨⟨d, hd, hdtid, hduid, hdty, hdrem, -⟩, -⟩
          rw [holdRevoked d hd hdtid hduid hdty] at hdrem
          exact Bool.true_eq_false.mp hdrem

/-- User row used by the rotation witness. -/
def w2User : UserDoc :=
  { id := "u1", email := "u1@x.com", password := "pw", roles := [],
    verify := UserVerifyStatus.Verified, is_approved := true, is_removed := false }

/-- State with one active refresh row and its user, used by the
rotation witness. -/
def w2State : AppState :=
  { emptyState with
    tokens := [{ token_id := "t1", user_id := "u1", token := w1Token,
                 type := TokenType.RefreshToken, expires_at := 100,
                 is_removed := false }],
    users := [w2User] }

/-- Token pair returned by the concrete successful reissue. -/
def w2Pair : SignedToken × SignedToken :=
  (TokenService.generateAccessToken wEnv 10 "u1" "u1@x.com" [],
   (TokenService.generateRefreshToken wEnv
     (TokenService.invalidateToken w2State w1Token) 10 "u1" "t2").1)

/-- Final state of the concrete successful reissue. -/
def w2Final : AppState :=
  (TokenService.generateRefreshToken wEnv
    (TokenService.invalidateToken w2State w1Token) 10 "u1" "t2").2.2

/-- Witness for C2 at a concrete successful rotation. -/
theorem reissue_rotation_atomic_witness :
    (∀ d ∈ w2Final.tokens, d.token_id = "t1" → d.user_id = w1Token.payload.sub →
      d.type = TokenType.RefreshToken → d.is_removed = true)
    ∧ activeRefresh w2Final 10 "t2" w1Token.payload.sub
    ∧ ¬ (activeRefresh w2State 10 "t1" w1Token.payload.sub ∧
          activeRefresh w2State 10 "t2" w1Token.payload.sub)
    ∧ ¬ (activeRefresh (TokenService.invalidateToken w2State w1Token) 10 "t1" w1Token.payload.sub ∧
          activeRefresh (TokenService.invalidateToken w2State w1Token) 10 "t2" w1Token.payload.sub)
    ∧ ¬ (activeRefresh w2Final 10 "t1" w1Token.payload.sub ∧
          activeRefresh w2Final 10 "t2" w1Token.payload.sub) :=
  reissue_rotation_atomic wEnv w2State 10 "t2" w1Token "t1" w2Pair w2Final
    (by rfl) (by rfl) (by decide) (by decide) (by decide)

/-- The payload generateAccessToken signs. -/
def accessPayload (env : Env) (now : Nat) (uid email : String)
    (roles : List String) : JwtPayload :=
  { sub := uid, type := TokenType.AccessToken, email := email, roles := roles,
    iat := now, exp := now + env.accessTtl }

/-- The successful validation result carrying a payload. -/
def validResult (p : JwtPayload) : TokenService.TokenValidationResult :=
  { valid := true, expired := false, payload := some p, error := none }

/-- C5: round-trip of token generation through validation. A freshly
generated access token validates as an access token and yields exactly
the signed claims, provided it is unexpired at validation time, not
blacklisted, and the access key is nonempty. A freshly generated
refresh token validates in the post-generation state (where its row is
present and not removed) and yields exactly the signed claims, provided
additionally the user id is nonempty and the refresh key is nonempty. -/
theorem token_roundtrip (env : Env) (s : AppState) (now now2 : Nat)
    (uid email : String) (roles : List String) (fid : String)
    (hak : env.accessKey ≠ "")
    (hrk : env.refreshKey ≠ "")
    (huid : uid ≠ "")
    (hblA : TokenService.generateAccessToken env now uid email roles ∉ s.blacklist)
    (hexpA : now2 < now + env.accessTtl)
    (hblR : jwtSign (newRefreshPayload env now uid fid) env.refreshKey ∉ s.blacklist)
    (hexpR : now2 < now + env.refreshTtl) :
    TokenService.validateToken env s now2
        (TokenService.generateAccessToken env now uid email roles)
        TokenType.AccessToken
      = validResult (accessPayload env now uid email roles)
    ∧
    TokenService.validateToken env
        (TokenService.generateRefreshToken env s now uid fid).2.2 now2
        (TokenService.generateRefreshToken env s now uid fid).1
        TokenType.RefreshToken
      = validResult (newRefreshPayload env now uid fid) := by
  constructor
  · have h1 : ¬(now + env.accessTtl ≤ now2) := Nat.not_le.mpr hexpA
    simp only [TokenService.generateAccessToken, jwtSign] at hblA
    simp [TokenService.validateToken, TokenService.generateAccessToken,
      TokenService.tokenSecretMap, jwtSign, jwtVerify, hblA, hak, h1,
      accessPayload, validResult]
  · have h1 : ¬(now + env.refreshTtl ≤ now2) := Nat.not_le.mpr hexpR
    simp only [newRefreshPayload, jwtSign] at hblR
    simp [TokenService.validateToken, TokenService.generateRefreshToken,
      TokenService.tokenSecretMap, jwtSign, jwtVerify, newRefreshPayload,
      newRefreshDoc, hblR, hrk, huid, h1, validResult, List.any_append]

/-- Witness for C5 at concrete claims, keys and instants. -/
theorem token_roundtrip_witness :
    TokenService.validateToken wEnv emptyState 10
        (TokenService.generateAccessToken wEnv 0 "u1" "e" ["r1"])
        TokenType.AccessToken
      = validResult (accessPayload wEnv 0 "u1" "e" ["r1"])
    ∧
    TokenService.validateToken wEnv
        (TokenService.generateRefreshToken wEnv emptyState 0 "u1" "t9").2.2 10
        (TokenService.generateRefreshToken wEnv emptyState 0 "u1" "t9").1
        TokenType.RefreshToken
      = validResult (newRefreshPayload wEnv 0 "u1" "t9") :=
  token_roundtrip wEnv emptyState 0 10 "u1" "e" ["r1"] "t9"
    (by decide) (by decide) (by decide) (by decide) (by decide) (by decide) (by decide)

/-- C6 (amended): for a token that is not blacklisted and whose key
matches the (nonempty) secret of the expected type, validateToken
classifies the token as expired — error message Token has expired —
whenever the clock is at or past the expiry instant. The comparison is
the non-strict one of the jsonwebtoken library; blacklisted tokens are
reported as invalidated before any expiry check, and a wrong-key token
is reported as a signature failure before any expiry check. -/
theorem validate_expired_classification (env : Env) (s : AppState) (now : Nat)
    (t : SignedToken) (ty : TokenType)
    (hbl : t ∉ s.blacklist)
    (hkey : t.key = TokenService.tokenSecretMap env ty)
    (hne : TokenService.tokenSecretMap env ty ≠ "")
    (hexp : t.payload.exp ≤ now) :
    TokenService.validateToken env s now t ty =
      TokenService.invalidToken "Token has expired" := by
  unfold TokenService.validateToken
  rw [if_neg hbl, if_neg hne]
  unfold jwtVerify
  rw [if_neg (not_not_intro hkey), if_pos hexp]

/-- Expired refresh token signed with the right key, for the C6
counterexample and witness. -/
def c6ExpiredToken : SignedToken :=
  jwtSign { sub := "u1", type := TokenType.RefreshToken, iat := 0, exp := 5,
            tokenId := some "t1" } "rkey"

/-- Expired refresh token signed with a wrong key, for the C6
counterexample. -/
def c6WrongKeyToken : SignedToken :=
  jwtSign { sub := "u1", type := TokenType.RefreshToken, iat := 0, exp := 5,
            tokenId := some "t1" } "badkey"

/-- Counterexample to C6 as stated: a blacklisted token whose expiry is
strictly past is reported as invalidated, not expired; a wrong-key
token whose expiry is strictly past is reported as a signature failure,
not expired — so the Expired classification is not independent of
signature validity; and at an instant exactly equal to the expiry (not
strictly past), the code already reports Token has expired — so the
comparison is not strict. -/
theorem validate_expired_counterexample :
    (TokenService.validateToken wEnv { emptyState with blacklist := [c6ExpiredToken] }
        10 c6ExpiredToken TokenType.RefreshToken).error
      = some "Token has been invalidated"
    ∧ (TokenService.validateToken wEnv emptyState 10 c6WrongKeyToken
        TokenType.RefreshToken).error = some "invalid signature"
    ∧ (TokenService.validateToken wEnv emptyState 5 c6ExpiredToken
        TokenType.RefreshToken).error = some "Token has expired" := by
  exact ⟨rfl, rfl, rfl⟩

/-- Witness for C6 (amended) at a concrete expired token. -/
theorem validate_expired_classification_witness :
    TokenService.validateToken wEnv emptyState 10 c6ExpiredToken
        TokenType.RefreshToken
      = TokenService.invalidToken "Token has expired" :=
  validate_expired_classification wEnv emptyState 10 c6ExpiredToken
    TokenType.RefreshToken (by decide) (by decide) (by decide) (by decide)

/-- C4 (amended): every refresh presentation that fails token
validation — expired, revoked, not found in the store, or malformed —
is rejected with HTTP status 401, but the message of the
ErrorWithStatus is the reason-specific error of validateToken (with a
generic fallback when the validation carries no message), so two runs
that fail for different reasons yield distinguishable errors rather
than one uniform failure. -/
theorem reissue_failure_propagates_reason (env : Env) (s : AppState) (now : Nat)
    (fid : String) (rt : SignedToken)
    (hinv : (TokenService.validateToken env s now rt TokenType.RefreshToken).valid = false) :
    AuthService.reissueToken env s now fid (some rt) =
      .error ⟨(TokenService.validateToken env s now rt TokenType.RefreshToken).error.getD
        MSG_TOKEN_INVALID, HTTP_UN_AUTHORIZED⟩ := by
  simp only [AuthService.reissueToken]
  rw [if_pos hinv]

/-- Unexpired, well-signed refresh token with no matching stored row,
for the C4 counterexample and witness. -/
def c4UnknownToken : SignedToken :=
  jwtSign { sub := "u1", type := TokenType.RefreshToken, iat := 0, exp := 100,
            tokenId := some "t9" } "rkey"

/-- Counterexample to C4 as stated: two refresh presentations that fail
for different reasons — one expired, one with no stored row — surface
two different ErrorWithStatus values, so failing runs are
distinguishable by their error. -/
theorem reissue_failure_distinguishable :
    AuthService.reissueToken wEnv w2State 10 "f1" (some c6ExpiredToken)
      = .error ⟨"Token has expired", HTTP_UN_AUTHORIZED⟩
    ∧ AuthService.reissueToken wEnv w2State 10 "f1" (some c4UnknownToken)
      = .error ⟨"Token has been revoked or does not exist", HTTP_UN_AUTHORIZED⟩ :=
  ⟨rfl, rfl⟩

/-- Witness for C4 (amended) at a concrete failing presentation. -/
theorem reissue_failure_propagates_reason_witness :
    AuthService.reissueToken wEnv w2State 10 "f1" (some c4UnknownToken) =
      .error ⟨(TokenService.validateToken wEnv w2State 10 c4UnknownToken
        TokenType.RefreshToken).error.getD MSG_TOKEN_INVALID, HTTP_UN_AUTHORIZED⟩ :=
  reissue_failure_propagates_reason wEnv w2State 10 "f1" c4UnknownToken (by decide)

/-- Witness for C1 at a concrete state holding one active refresh row:
after either revocation operation, a cold-cache validation rejects the
token. -/
theorem revoked_refresh_never_validates_witness :
    (TokenService.validateToken wEnv
      { TokenService.invalidateAllUserRefreshTokens w1State "u1" with blacklist := [] }
      10 w1Token TokenType.RefreshToken).valid = false
    ∧
    (TokenService.validateToken wEnv
      { TokenService.invalidateToken w1State w1Token with blacklist := [] }
      10 w1Token TokenType.RefreshToken).valid = false :=
  ⟨revoked_refresh_never_validates.1 wEnv w1State 10 w1Token "u1" (by decide),
   revoked_refresh_never_validates.2 wEnv w1State 10 w1Token (by decide) (by decide)⟩

/-- C7: the permission resolution returns the full permission catalog
for a principal holding at least one active role named Admin (whatever
other roles it holds), returns the empty set for a principal whose
active-role set is empty, and the cached variant on a cold cache
returns exactly the database result. -/
theorem permissions_admin_catalog_and_empty (s : AppState) (uid : String)
    (user : UserDoc)
    (hfind : s.users.find? (fun u => decide (u.id = uid)) = some user) :
    ((∃ r ∈ s.roles, r.id ∈ user.roles ∧ r.is_active = true ∧ r.name = "Admin") →
      PermissionService.getUserPermissionsFromDB s uid =
        s.permissions.map PermissionService.toCached)
    ∧ ((s.roles.filter (fun r => decide (r.id ∈ user.roles ∧ r.is_active = true))).isEmpty = true →
      PermissionService.getUserPermissionsFromDB s uid = [])
    ∧ (∀ nowMs : Nat,
      (PermissionService.getUserPermissions s [] nowMs uid).1 =
        PermissionService.getUserPermissionsFromDB s uid) := by
  refine ⟨?_, ?_, ?_⟩
  · rintro ⟨r, hr, hri, hact, hname⟩
    have hne : user.roles.isEmpty ≠ true := by
      intro h0; rw [List.isEmpty_iff] at h0; rw [h0] at hri; simp at hri
    have hfil : r ∈ s.roles.filter
        (fun r => decide (r.id ∈ user.roles ∧ r.is_active = true)) :=
      List.mem_filter.mpr ⟨hr, by simp [hri, hact]⟩
    have hfne : (s.roles.filter
        (fun r => decide (r.id ∈ user.roles ∧ r.is_active = true))).isEmpty ≠ true := by
      intro h0; rw [List.isEmpty_iff] at h0; rw [h0] at hfil; simp at hfil
    have hadm : (s.roles.filter
        (fun r => decide (r.id ∈ user.roles ∧ r.is_active = true))).any
          (fun r => decide (r.name = "Admin")) = true :=
      List.any_eq_true.mpr ⟨r, hfil, by simp [hname]⟩
    simp only [PermissionService.getUserPermissionsFromDB, hfind]
    rw [if_neg hne, if_neg hfne, if_pos hadm]
  · intro hfe
    by_cases hre : user.roles.isEmpty = true
    · simp only [PermissionService.getUserPermissionsFromDB, hfind]
      rw [if_pos hre]
    · simp only [PermissionService.getUserPermissionsFromDB, hfind]
      rw [if_neg hre, if_pos hfe]
  · intro nowMs
    simp [PermissionService.getUserPermissions, List.find?]

/-- Admin user for the C7 witness. -/
def c7Admin : UserDoc :=
  { id := "u1", email := "a@x.com", password := "pw", roles := ["r1"],
    verify := UserVerifyStatus.Verified, is_approved := true, is_removed := false }

/-- State with an active Admin role and a one-entry permission catalog
for the C7 witness. -/
def c7State : AppState :=
  { emptyState with
    users := [c7Admin],
    roles := [{ id := "r1", name := "Admin", is_active := true, permissions := [] }],
    permissions := [{ id := "p1", name := "course.read", action := "read",
                      subject := "Course", conditions := none }] }

/-- Witness for C7 at a concrete admin principal: the full catalog is
returned, both by the database function and through a cold cache. -/
theorem permissions_admin_catalog_and_empty_witness :
    PermissionService.getUserPermissionsFromDB c7State "u1" =
      c7State.permissions.map PermissionService.toCached
    ∧ (PermissionService.getUserPermissions c7State [] 0 "u1").1 =
      PermissionService.getUserPermissionsFromDB c7State "u1" :=
  ⟨(permissions_admin_catalog_and_empty c7State "u1" c7Admin (by decide)).1
      ⟨{ id := "r1", name := "Admin", is_active := true, permissions := [] },
        by decide, by decide, rfl, rfl⟩,
   (permissions_admin_catalog_and_empty c7State "u1" c7Admin (by decide)).2.2 0⟩

/-- User for the OTP double-use failing input. -/
def c3User : UserDoc :=
  { id := "u1", email := "alice@x.com", password := "pw", roles := [],
    verify := UserVerifyStatus.Unverified, is_approved := false,
    is_removed := false }

/-- Stored password-reset code for the failing input: digest of the
plaintext 482913, unexpired at instant 10. -/
def c3Otp : OtpDoc :=
  { oid := 1, user_id := "u1", code := OtpUtil.encryptOTP wEnv "482913",
    expired_at := 1000, created_at := 0, type := OtpVerifyType.PasswordReset,
    is_used := false }

/-- State for the OTP double-use failing input. -/
def c3State : AppState := { emptyState with users := [c3User], otps := [c3Otp] }

/-- C3 is violated by the code on the password-reset path: the first
verification succeeds and marks the stored code used, yet a second
verification presenting the same plaintext code, before expiry,
succeeds again — the lookup of verifyPasswordResetOTP does not exclude
rows whose is_used flag is set, although the function sets that flag
and its email-verification sibling does filter on it. -/
theorem reset_otp_double_use :
    (AuthService.verifyPasswordResetOTP wEnv c3State 10 "482913" "alice@x.com").1
      = Except.ok ("u1", "alice@x.com")
    ∧ ((AuthService.verifyPasswordResetOTP wEnv c3State 10 "482913" "alice@x.com").2.otps.all
        (fun o => o.is_used)) = true
    ∧ (AuthService.verifyPasswordResetOTP wEnv
        (AuthService.verifyPasswordResetOTP wEnv c3State 10 "482913" "alice@x.com").2
        10 "482913" "alice@x.com").1 = Except.ok ("u1", "alice@x.com") :=
  ⟨rfl, rfl, rfl⟩

/-- Outstanding unexpired unused password-reset code predating a
resend, for C8. -/
def c8OldOtp : OtpDoc :=
  { oid := 1, user_id := "u1", code := OtpUtil.encryptOTP wEnv "482913",
    expired_at := 1000, created_at := 0, type := OtpVerifyType.PasswordReset,
    is_used := false }

/-- State holding the outstanding code, for C8. -/
def c8State : AppState := { emptyState with users := [c3User], otps := [c8OldOtp] }

/-- Counterexample to C8 as stated: after resendOTP issues a new
password-reset code for the same principal and purpose, the prior
outstanding code is still stored, still unused and still unexpired —
resendOTP deletes and invalidates nothing. -/
theorem resend_keeps_old_codes :
    (AuthService.resendOTP wEnv c8State 10 "alice@x.com" "111111" 2
        OtpVerifyType.PasswordReset).map
      (fun s2 => decide (c8OldOtp ∈ s2.otps ∧ c8OldOtp.is_used = false ∧
        (10 : Nat) < c8OldOtp.expired_at))
      = Except.ok true := rfl

/-- C8 (amended): generateAndSendOTP deletes every prior stored code of
the principal (all purposes) before inserting the new one, and
forgotPassword deletes every prior password-reset code of the principal
before inserting the new one; resendOTP, however, inserts the new code
while leaving every previously stored code in place. -/
theorem otp_issuance_prior_codes (env : Env) (s : AppState) (now : Nat) :
    (∀ (uid plain : String) (oid : Nat) (ty : Option OtpVerifyType),
      ∀ o ∈ s.otps, o.user_id = uid → o.oid ≠ oid →
        o ∉ (AuthService.generateAndSendOTP env s now uid plain oid ty).otps)
    ∧ (∀ (email plain : String) (oid : Nat) (s2 : AppState) (user : UserDoc),
      s.users.find? (fun u => decide (u.email = env.normalize email)) = some user →
      AuthService.forgotPassword env s now email plain oid = Except.ok s2 →
      ∀ o ∈ s.otps, o.user_id = user.id → o.type = OtpVerifyType.PasswordReset →
        o.oid ≠ oid → o ∉ s2.otps)
    ∧ (∀ (email plain : String) (oid : Nat) (ty : OtpVerifyType) (s2 : AppState),
      AuthService.resendOTP env s now email plain oid ty = Except.ok s2 →
      ∀ o ∈ s.otps, o ∈ s2.otps) := by
  refine ⟨?_, ?_, ?_⟩
  · intro uid plain oid ty o ho houid hooid hmem
    simp only [AuthService.generateAndSendOTP] at hmem
    rcases List.mem_append.mp hmem with h1 | h2
    · have h3 := (List.mem_filter.mp h1).2
      simp [houid] at h3
    · rw [List.mem_singleton] at h2
      rw [h2] at hooid
      exact hooid rfl
  · intro email plain oid s2 user hfind hok o ho houid hoty hooid
    simp only [AuthService.forgotPassword, hfind] at hok
    rw [Except.ok.injEq] at hok
    rw [← hok]
    intro hmem
    simp only [Mongo.deleteMany] at hmem
    rcases List.mem_append.mp hmem with h1 | h2
    · have h3 := (List.mem_filter.mp h1).2
      simp [houid, hoty] at h3
    · rw [List.mem_singleton] at h2
      rw [h2] at hooid
      exact hooid rfl
  · intro email plain oid ty s2 hok o ho
    simp only [AuthService.resendOTP] at hok
    split at hok
    · simp at hok
    · rw [Except.ok.injEq] at hok
      rw [← hok]
      exact List.mem_append_left _ ho

/-- Post-state of the concrete forgotPassword run used by the C8
witness. -/
def c8ForgotResult : AppState :=
  (AuthService.forgotPassword wEnv c8State 10 "alice@x.com" "222222" 3).toOption.getD
    emptyState

/-- Post-state of the concrete resendOTP run used by the C8 witness. -/
def c8ResendResult : AppState :=
  (AuthService.resendOTP wEnv c8State 10 "alice@x.com" "111111" 2
    OtpVerifyType.PasswordReset).toOption.getD emptyState

/-- Witness for C8 (amended) at concrete issuance runs: the prior code
is purged by generateAndSendOTP and forgotPassword but survives
resendOTP. -/
theorem otp_issuance_prior_codes_witness :
    c8OldOtp ∉ (AuthService.generateAndSendOTP wEnv c8State 10 "u1" "999999" 5
      (some OtpVerifyType.EmailVerification)).otps
    ∧ c8OldOtp ∉ c8ForgotResult.otps
    ∧ c8OldOtp ∈ c8ResendResult.otps :=
  ⟨(otp_issuance_prior_codes wEnv c8State 10).1 "u1" "999999" 5
      (some OtpVerifyType.EmailVerification) c8OldOtp (by decide) rfl (by decide),
   (otp_issuance_prior_codes wEnv c8State 10).2.1 "alice@x.com" "222222" 3
      c8ForgotResult c3User (by decide) (by rfl) c8OldOtp (by decide) rfl rfl (by decide),
   (otp_issuance_prior_codes wEnv c8State 10).2.2 "alice@x.com" "111111" 2
      OtpVerifyType.PasswordReset c8ResendResult (by rfl) c8OldOtp (by decide)⟩

/-- User for the password-reset state change scenario, with the digest
of the current password oldpw. -/
def c9User : UserDoc :=
  { id := "u9", email := "bob@x.com", password := Crypto.hashPassword wEnv "oldpw",
    roles := [], verify := UserVerifyStatus.Verified, is_approved := true,
    is_removed := false }

/-- Outstanding, unexpired, unused password-reset code of the
principal at reset time (reachable through resendOTP issuing a second
code and the newer one being consumed). -/
def c9UnusedOtp : OtpDoc :=
  { oid := 1, user_id := "u9", code := OtpUtil.encryptOTP wEnv "482913",
    expired_at := 1000, created_at := 0, type := OtpVerifyType.PasswordReset,
    is_used := false }

/-- The consumed password-reset code of the principal. -/
def c9UsedOtp : OtpDoc :=
  { oid := 2, user_id := "u9", code := OtpUtil.encryptOTP wEnv "771234",
    expired_at := 1005, created_at := 5, type := OtpVerifyType.PasswordReset,
    is_used := true }

/-- A live refresh row of the principal. -/
def c9TokenRow : TokenDoc :=
  { token_id := "t9", user_id := "u9",
    token := jwtSign (newRefreshPayload wEnv 0 "u9" "t9") "rkey",
    type := TokenType.RefreshToken, expires_at := 1000, is_removed := false }

/-- State for the password-reset scenario. -/
def c9State : AppState :=
  { emptyState with
    users := [c9User],
    otps := [c9UnusedOtp, c9UsedOtp],
    tokens := [c9TokenRow] }

/-- C9 evaluated on the failing input: resetting to a password equal to
the current one is rejected with no state change, and a successful
reset revokes every refresh row of the principal and deletes the
consumed reset code — but the outstanding unused reset code survives,
because the deleteMany filter of resetPassword restricts to rows with
is_used true, contradicting both the claim and the source comment
saying it deletes all password reset OTPs for the user. -/
theorem reset_password_behavior :
    ((AuthService.resetPassword wEnv c9State "bob@x.com" "oldpw").1
        = Except.error ⟨MSG_NEW_PASSWORD_SAME, HTTP_BAD_REQUEST⟩
      ∧ (AuthService.resetPassword wEnv c9State "bob@x.com" "oldpw").2 = c9State)
    ∧ ((AuthService.resetPassword wEnv c9State "bob@x.com" "newpw").1 = Except.ok true
      ∧ ((AuthService.resetPassword wEnv c9State "bob@x.com" "newpw").2.tokens.all
          (fun d => d.is_removed)) = true
      ∧ c9UsedOtp ∉ (AuthService.resetPassword wEnv c9State "bob@x.com" "newpw").2.otps
      ∧ c9UnusedOtp ∈ (AuthService.resetPassword wEnv c9State "bob@x.com" "newpw").2.otps) :=
  ⟨⟨rfl, rfl⟩, rfl, rfl, by decide, by decide⟩

/-- C10: generateAndSendOTP deletes every stored code of the principal
regardless of purpose before inserting the new one (its deleteMany
filters on user_id only), and leaves the codes of every other
principal in place. -/
theorem generateAndSendOTP_purge_frame (env : Env) (s : AppState) (now : Nat)
    (uid plain : String) (oid : Nat) (ty : Option OtpVerifyType)
    (hfresh : ∀ o ∈ s.otps, o.oid ≠ oid) :
    (∀ o ∈ s.otps, o.user_id = uid →
      o ∉ (AuthService.generateAndSendOTP env s now uid plain oid ty).otps)
    ∧ (∀ o ∈ s.otps, o.user_id ≠ uid →
      o ∈ (AuthService.generateAndSendOTP env s now uid plain oid ty).otps) := by
  constructor
  · intro o ho houid hmem
    simp only [AuthService.generateAndSendOTP] at hmem
    rcases List.mem_append.mp hmem with h1 | h2
    · have h3 := (List.mem_filter.mp h1).2
      simp [houid] at h3
    · rw [List.mem_singleton] at h2
      have := hfresh o ho
      rw [h2] at this
      exact this rfl
  · intro o ho houid
    simp only [AuthService.generateAndSendOTP]
    refine List.mem_append_left _ (List.mem_filter.mpr ⟨ho, ?_⟩)
    simp [houid]

/-- Password-reset code of a second principal, untouched by the C10
scenario. -/
def c10OtherOtp : OtpDoc :=
  { oid := 7, user_id := "u2", code := OtpUtil.encryptOTP wEnv "555555",
    expired_at := 1000, created_at := 0, type := OtpVerifyType.PasswordReset,
    is_used := false }

/-- State with codes of two principals for the C10 witness. -/
def c10State : AppState := { emptyState with otps := [c8OldOtp, c10OtherOtp] }

/-- Witness for C10: issuing an email-verification code for the first
principal destroys that principal's outstanding password-reset code
while the second principal's code survives. -/
theorem generateAndSendOTP_purge_frame_witness :
    c8OldOtp ∉ (AuthService.generateAndSendOTP wEnv c10State 10 "u1" "999999" 5
      (some OtpVerifyType.EmailVerification)).otps
    ∧ c10OtherOtp ∈ (AuthService.generateAndSendOTP wEnv c10State 10 "u1" "999999" 5
      (some OtpVerifyType.EmailVerification)).otps :=
  ⟨(generateAndSendOTP_purge_frame wEnv c10State 10 "u1" "999999" 5
      (some OtpVerifyType.EmailVerification) (by decide)).1 c8OldOtp (by decide) rfl,
   (generateAndSendOTP_purge_frame wEnv c10State 10 "u1" "999999" 5
      (some OtpVerifyType.EmailVerification) (by decide)).2 c10OtherOtp (by decide)
      (by decide)⟩

end Wma

